import Mathlib

/-!
Shallow embedding of `src/main.py` from the lit-review-agent repository.

The core pipeline is: `arxiv_search` (PaperSource), `get_available_gemini_models`
and `setup_gemini` (ModelResolver), `summarize_with_gemini` (Summarizer), and the
start-button block of `main` (ReviewPipeline).  External effects (the arXiv
client, `genai.configure`, `genai.list_models`, `GenerativeModel` construction,
`generate_content`) are modelled as deterministic oracles supplied as parameters;
everything else is translated directly from the source.
-/

namespace LitReview

/-- PaperRecord as built by `arxiv_search` (src/main.py lines 86-94): the dict
with keys title, authors, published, summary, pdf_url. -/
structure Paper where
  title : String
  authors : List String
  published : String
  summary : String
  pdf_url : String
deriving Repr, DecidableEq

/-- Python truthiness of an optional string (`if not api_key`, `if not
SELECTED_MODEL`, `SELECTED_MODEL or ...`): `None` and `""` are falsy. -/
def pyTruthy : Option String → Bool
  | none => false
  | some s => !s.isEmpty

/-- The static priority candidate list of `setup_gemini`
(src/main.py lines 122-130). -/
def candidates : List String :=
  ["gemini-1.5-flash",
   "gemini-1.5-flash-latest",
   "gemini-1.5-flash-8b",
   "gemini-1.5-pro",
   "gemini-1.5-pro-latest",
   "gemini-1.0-pro",
   "gemini-pro"]

/-- Insertion into a ≤-sorted list of strings, used to model Python `sorted`. -/
def insertSorted (s : String) : List String → List String
  | [] => [s]
  | t :: rest => if s ≤ t then s :: t :: rest else t :: insertSorted s rest

/-- Python `sorted` on a list of strings (insertion sort; only the membership
and emptiness of the result matter downstream). -/
def sortStrings : List String → List String
  | [] => []
  | s :: rest => insertSorted s (sortStrings rest)

/-- `get_available_gemini_models` (src/main.py lines 99-111): each provider
model is a `(name, supported_generation_methods)` pair; keep names that are
non-empty and either support `generateContent` or report no methods; return
them sorted.  Any exception from `genai.list_models` (`listRaises`) yields
the empty list. -/
def get_available_gemini_models (listRaises : Bool)
    (listedModels : List (String × List String)) : List String :=
  if listRaises then []
  else
    sortStrings
      ((listedModels.filter
        (fun m => !m.1.isEmpty && (m.2.contains "generateContent" || m.2.isEmpty))).map
        Prod.fst)

/-- The candidate walk inside `setup_gemini` (src/main.py lines 135-143):
for each candidate name in order, if the enumerated set is empty or contains
the name, probe it (`genai.GenerativeModel(name)`); a successful probe selects
the name and stops, a failed probe (swallowed exception) continues.  Returns
the selected name (if any) together with the list of names actually probed. -/
def walkTrace (available : List String) (probe : String → Bool) :
    List String → Option String × List String
  | [] => (none, [])
  | name :: rest =>
    if available.isEmpty || available.contains name then
      if probe name then (some name, [name])
      else
        let r := walkTrace available probe rest
        (r.1, name :: r.2)
    else walkTrace available probe rest

/-- Oracle bundle for the Gemini provider boundary used by `setup_gemini`. -/
structure GeminiEnv where
  /-- `os.getenv("GEMINI_API_KEY")`: `none` models an unset variable. -/
  apiKey : Option String
  /-- whether `genai.configure(api_key=...)` succeeds (does not raise). -/
  configureOk : Bool
  /-- whether `genai.list_models()` raises inside `get_available_gemini_models`. -/
  listRaises : Bool
  /-- the models `genai.list_models()` would return, as (name, methods) pairs. -/
  listedModels : List (String × List String)
  /-- whether `genai.GenerativeModel(name)` construction succeeds for a name. -/
  probe : String → Bool

/-- The distinct failure exits of `setup_gemini`. -/
inductive SetupError where
  | missingKey
  | configureFailed
  | noCompatibleModel
deriving Repr, DecidableEq

/-- Result of `setup_gemini`: the global `SELECTED_MODEL` afterwards, the
boolean return value, which error (if any) was reported, how many times the
model list was enumerated, and which candidates were probed. -/
structure SetupResult where
  selected : Option String
  ok : Bool
  error : Option SetupError
  enumCalls : Nat
  probed : List String
deriving Repr, DecidableEq

/-- `setup_gemini` (src/main.py lines 113-151), with the global
`SELECTED_MODEL` threaded explicitly as `prior` (its value before the call).
Missing/empty key returns False; a `genai.configure` exception returns False;
otherwise the candidate walk runs and `SELECTED_MODEL` is overwritten on the
first successful probe (else left unchanged); finally `if not SELECTED_MODEL`
reports "No compatible Gemini model found" and returns False. -/
def setup_gemini (env : GeminiEnv) (prior : Option String) : SetupResult :=
  if !pyTruthy env.apiKey then
    ⟨prior, false, some .missingKey, 0, []⟩
  else if !env.configureOk then
    ⟨prior, false, some .configureFailed, 0, []⟩
  else
    let available := get_available_gemini_models env.listRaises env.listedModels
    let w := walkTrace available env.probe candidates
    let sel := match w.1 with
      | some m => some m
      | none => prior
    if pyTruthy sel then ⟨sel, true, none, 1, w.2⟩
    else ⟨sel, false, some .noCompatibleModel, 1, w.2⟩

/-- Literal prompt text before the title (src/main.py lines 155-160). -/
def promptSeg0 : String :=
  "\nYou are a research assistant specialized in summarizing academic papers.\nFollow this exact structure for the provided paper details. Do NOT return JSON.\n\n---\n### Title: "

/-- Literal prompt text between the title and the joined authors. -/
def promptSeg1 : String := "\n\n**Author Names:** "

/-- Literal prompt text between the joined authors and the published date. -/
def promptSeg2 : String := "  \n**Publication Details:** "

/-- Literal prompt text between the "(arXiv)" tag and the abstract. -/
def promptSeg3 : String := "  \n\n**Abstract:** "

/-- Literal prompt text after the abstract (src/main.py lines 167-192). -/
def promptSeg4 : String :=
  "\n\nUsing the abstract and any relevant background knowledge, produce the rest:\n\n**Description:** <summary in your own words>  \n\n**Scope:** <scope of research>  \n\n**Methodology:** <technical approaches, models, algorithms>  \n\n**Research Gaps:** <limitations / gaps>  \n\n**Research Questions:** <questions addressed>  \n\n**Important Points:**  \n- Point 1  \n- Point 2  \n\n**Important Sentences (direct quotes):**  \n1. \"...\"  \n2. \"...\"  \n\n**Results & Conclusion:** <findings, statistics, contributions>  \n\n**Advantages:** <strengths>  \n**Disadvantages:** <limitations>  \n---\n"

/-- The f-string prompt of `summarize_with_gemini` (src/main.py lines 155-192):
title, comma-joined authors, published date plus a literal " (arXiv)" tag, and
the verbatim abstract, interpolated into the fixed template. -/
def buildPrompt (p : Paper) : String :=
  promptSeg0 ++ p.title ++ promptSeg1 ++ String.intercalate ", " p.authors ++
    promptSeg2 ++ p.published ++ " (arXiv)" ++ promptSeg3 ++ p.summary ++ promptSeg4

/-- The model identifier used by `summarize_with_gemini`:
`SELECTED_MODEL or "gemini-1.5-flash"` (src/main.py line 193). -/
def modelForCall : Option String → String
  | none => "gemini-1.5-flash"
  | some s => if s.isEmpty then "gemini-1.5-flash" else s

/-- `summarize_with_gemini` (src/main.py lines 153-195): the `generate` oracle
stands for `GenerativeModel(model).generate_content(prompt)`; `.error e` is a
raised exception with message `e`, `.ok t` a response whose `.text` is `t`
(`none` when the provider returns no text; `resp.text or ""` maps it to `""`). -/
def summarize_with_gemini
    (generate : String → String → Except String (Option String))
    (sel : Option String) (p : Paper) : Except String String :=
  match generate (modelForCall sel) (buildPrompt p) with
  | .ok t => .ok (t.getD "")
  | .error e => .error e

/-- ReviewResult: `{"paper": paper, "summary": text}` (src/main.py line 323). -/
structure ReviewResult where
  paper : Paper
  summary : String
deriving Repr, DecidableEq

/-- One iteration of the pipeline's summarization loop
(src/main.py lines 319-323): call the Summarizer; on an exception substitute
`"Summary failed: <message>"`. -/
def summarizeStep (generate : String → String → Except String (Option String))
    (sel : Option String) (p : Paper) : ReviewResult :=
  match summarize_with_gemini generate sel p with
  | .ok t => ⟨p, t⟩
  | .error e => ⟨p, "Summary failed: " ++ e⟩

/-- Oracle bundle for a whole run of the start-button block of `main`. -/
structure PipelineEnv where
  gemini : GeminiEnv
  /-- `st.session_state.get("user_selected_model")`: the optional override. -/
  userSelected : Option String
  /-- `arxiv_search topic max_results`: the papers the arXiv client yields, or
  a raised transport error with message. -/
  fetch : String → Nat → Except String (List Paper)
  /-- the LLM call oracle shared by all Summarizer invocations. -/
  generate : String → String → Except String (Option String)

/-- How a run of the start-button block ends. -/
inductive RunOutcome where
  /-- override path: `genai.configure` raised, "Failed to select model". -/
  | overrideConfigError
  /-- `setup_gemini` returned False and `main` returned early. -/
  | resolutionError (e : SetupError)
  /-- `arxiv_search` raised and the outer `except` caught it. -/
  | sourceError (msg : String)
  /-- the accumulated `summaries` list. -/
  | success (results : List ReviewResult)
deriving Repr, DecidableEq

/-- Observable trace of one run: the outcome, `SELECTED_MODEL` after
resolution, every `(query, max_results)` request issued to `arxiv_search`,
every paper handed to the Summarizer, and the resolver's enumeration/probe
activity. -/
structure RunTrace where
  outcome : RunOutcome
  selected : Option String
  fetchRequests : List (String × Nat)
  summarizeCalls : List Paper
  enumCalls : Nat
  probed : List String
deriving Repr

/-- `max(10, num_papers * 3)` (src/main.py line 310). -/
def fetchCount (k : Nat) : Nat := max 10 (k * 3)

/-- The fetch-truncate-summarize tail of the run (src/main.py lines 308-330),
after a model `sel` has been resolved: fetch `max(10, k*3)` candidates,
truncate to the first `k`, summarize each in order. -/
def runFromModel (pe : PipelineEnv) (topic : String) (k : Nat)
    (sel : Option String) (enumCalls : Nat) (probed : List String) : RunTrace :=
  match pe.fetch topic (fetchCount k) with
  | .error e => ⟨.sourceError e, sel, [(topic, fetchCount k)], [], enumCalls, probed⟩
  | .ok papers =>
    let chosen := papers.take k
    ⟨.success (chosen.map (summarizeStep pe.generate sel)), sel,
      [(topic, fetchCount k)], chosen, enumCalls, probed⟩

/-- The start-button block of `main` (src/main.py lines 284-340), with the
global `SELECTED_MODEL` before the run passed as `prior`: if a user override
is set, `genai.configure` is attempted and the override becomes the model
(a configure exception aborts); otherwise `setup_gemini` runs and its failure
aborts; then the fetch-truncate-summarize loop runs. -/
def runPipeline (pe : PipelineEnv) (topic : String) (k : Nat)
    (prior : Option String) : RunTrace :=
  if pyTruthy pe.userSelected then
    if pe.gemini.configureOk then
      runFromModel pe topic k pe.userSelected 0 []
    else ⟨.overrideConfigError, prior, [], [], 0, []⟩
  else
    let s := setup_gemini pe.gemini prior
    if s.ok then runFromModel pe topic k s.selected s.enumCalls s.probed
    else ⟨.resolutionError ((s.error).getD .noCompatibleModel), s.selected,
      [], [], s.enumCalls, s.probed⟩

/-- Model resolution (override path or `setup_gemini`) succeeds, i.e. the run
reaches the arXiv fetch. -/
def resolutionSucceeds (pe : PipelineEnv) (prior : Option String) : Bool :=
  if pyTruthy pe.userSelected then pe.gemini.configureOk
  else (setup_gemini pe.gemini prior).ok

/-- The model identifier state after the resolution phase of `runPipeline`. -/
def resolvedSel (pe : PipelineEnv) (prior : Option String) : Option String :=
  if pyTruthy pe.userSelected then pe.userSelected
  else (setup_gemini pe.gemini prior).selected

/-- Number of model-list enumerations performed by the resolution phase. -/
def resolvedEnum (pe : PipelineEnv) (prior : Option String) : Nat :=
  if pyTruthy pe.userSelected then 0
  else (setup_gemini pe.gemini prior).enumCalls

/-- Candidates probed by the resolution phase. -/
def resolvedProbed (pe : PipelineEnv) (prior : Option String) : List String :=
  if pyTruthy pe.userSelected then []
  else (setup_gemini pe.gemini prior).probed

/-! ### Concrete sample inputs, used to evaluate the theorems on closed data -/

/-- A concrete paper record indexed by `i`. -/
def samplePaper (i : Nat) : Paper :=
  ⟨"Paper " ++ toString i, ["Ada Lovelace", "Alan Turing"],
   "2024-01-1" ++ toString i, "Abstract " ++ toString i,
   "http://example.org/" ++ toString i⟩

/-- A provider where configuration, enumeration denial and every probe succeed. -/
def sampleGeminiEnv : GeminiEnv :=
  ⟨some "test-key", true, true, [], fun _ => true⟩

/-- A run where the source returns as many papers as requested and every
summarization succeeds. -/
def samplePipelineEnv : PipelineEnv :=
  ⟨sampleGeminiEnv, none, fun _ n => .ok ((List.range n).map samplePaper),
   fun _ _ => .ok (some "ok text")⟩

/-- A run where every LLM call raises. -/
def failingPipelineEnv : PipelineEnv :=
  ⟨sampleGeminiEnv, none, fun _ n => .ok ((List.range n).map samplePaper),
   fun _ _ => .error "quota exceeded"⟩

/-- A probe that only succeeds on the third candidate. -/
def probeThird : String → Bool := fun s => s == "gemini-1.5-flash-8b"

/-- A provider whose enumeration raises (empty set) and whose first two
candidate probes fail. -/
def walkGeminiEnv : GeminiEnv := ⟨some "k", true, true, [], probeThird⟩

/-- A run where the arXiv client raises a transport error. -/
def downSourceEnv : PipelineEnv :=
  ⟨sampleGeminiEnv, none, fun _ _ => .error "connection reset",
   fun _ _ => .ok (some "t")⟩

/-- A run with a user override; every probe would fail, showing probing is
bypassed. -/
def overrideEnv : PipelineEnv :=
  ⟨⟨some "k", true, true, [], fun _ => false⟩, some "gemini-override",
   fun _ n => .ok ((List.range n).map samplePaper), fun _ _ => .ok none⟩

/-- A run where no candidate survives the probe. -/
def noModelEnv : PipelineEnv :=
  ⟨⟨some "k", true, true, [], fun _ => false⟩, none,
   fun _ _ => .ok [], fun _ _ => .ok none⟩

/-- A concrete paper. -/
def promptPaperA : Paper :=
  ⟨"Attention Is All You Need", ["Ashish Vaswani", "Noam Shazeer"],
   "2017-06-12", "We propose the Transformer.", "http://a.example/1"⟩

/-- The same paper metadata under a different source URL. -/
def promptPaperB : Paper :=
  ⟨"Attention Is All You Need", ["Ashish Vaswani", "Noam Shazeer"],
   "2017-06-12", "We propose the Transformer.", "http://b.example/2"⟩

/-! ### Helper lemmas -/

theorem summarizeStep_paper (generate : String → String → Except String (Option String))
    (sel : Option String) (p : Paper) : (summarizeStep generate sel p).paper = p := by
  unfold summarizeStep
  cases h : summarize_with_gemini generate sel p <;> rfl

theorem runFromModel_ok (pe : PipelineEnv) (topic : String) (k : Nat)
    (sel : Option String) (e : Nat) (pr : List String) (papers : List Paper)
    (hf : pe.fetch topic (fetchCount k) = .ok papers) :
    runFromModel pe topic k sel e pr =
      ⟨.success ((papers.take k).map (summarizeStep pe.generate sel)), sel,
        [(topic, fetchCount k)], papers.take k, e, pr⟩ := by
  unfold runFromModel
  rw [hf]

theorem runFromModel_err (pe : PipelineEnv) (topic : String) (k : Nat)
    (sel : Option String) (e : Nat) (pr : List String) (msg : String)
    (hf : pe.fetch topic (fetchCount k) = .error msg) :
    runFromModel pe topic k sel e pr =
      ⟨.sourceError msg, sel, [(topic, fetchCount k)], [], e, pr⟩ := by
  unfold runFromModel
  rw [hf]

theorem runPipeline_eq_of_resolved (pe : PipelineEnv) (topic : String) (k : Nat)
    (prior : Option String) (h : resolutionSucceeds pe prior = true) :
    runPipeline pe topic k prior =
      runFromModel pe topic k (resolvedSel pe prior) (resolvedEnum pe prior)
        (resolvedProbed pe prior) := by
  unfold runPipeline resolutionSucceeds at *
  unfold resolvedSel resolvedEnum resolvedProbed
  by_cases hu : pyTruthy pe.userSelected = true
  · simp only [hu, if_true] at h ⊢
    simp [h]
  · simp only [Bool.not_eq_true] at hu
    simp only [hu, Bool.false_eq_true, if_false] at h ⊢
    simp [h]

theorem fetchCount_ge (k : Nat) : k ≤ fetchCount k := by
  unfold fetchCount
  omega

theorem walkTrace_nil_first_success (probe : String → Bool) (cs : List String) :
    ∀ (n : Nat) (hn : n < cs.length),
      (∀ i (hi : i < n), probe (cs.get ⟨i, Nat.lt_trans hi hn⟩) = false) →
      probe (cs.get ⟨n, hn⟩) = true →
      walkTrace [] probe cs = (some (cs.get ⟨n, hn⟩), cs.take (n + 1)) := by
  induction cs with
  | nil =>
    intro n hn
    simp at hn
  | cons c rest ih =>
    intro n hn hfail hsucc
    cases n with
    | zero =>
      simp only [List.get] at hsucc
      simp [walkTrace, hsucc]
    | succ m =>
      have hc : probe c = false := hfail 0 (Nat.succ_pos m)
      have hm : m < rest.length := Nat.lt_of_succ_lt_succ hn
      have hrec := ih m hm (fun i hi => hfail (i + 1) (Nat.succ_lt_succ hi)) hsucc
      simp [walkTrace, hc, hrec]

theorem walkTrace_probed_filter (avail : List String) (probe : String → Bool) :
    ∀ (cs : List String) (name : String), name ∈ (walkTrace avail probe cs).2 →
      avail = [] ∨ name ∈ avail := by
  intro cs
  induction cs with
  | nil =>
    intro name h
    simp [walkTrace] at h
  | cons c rest ih =>
    intro name h
    simp only [walkTrace] at h
    split at h
    case isTrue hc =>
      have hca : avail = [] ∨ c ∈ avail := by
        rcases Bool.or_eq_true_iff.mp hc with h1 | h2
        · exact Or.inl (List.isEmpty_iff.mp h1)
        · exact Or.inr (by simpa using h2)
      split at h
      case isTrue hp =>
        simp at h
        subst h
        exact hca
      case isFalse hp =>
        simp at h
        rcases h with rfl | h
        · exact hca
        · exact ih name h
    case isFalse hc =>
      exact ih name h

theorem walkTrace_selected_sound (avail : List String) (probe : String → Bool) :
    ∀ (cs : List String) (m : String), (walkTrace avail probe cs).1 = some m →
      probe m = true ∧ m ∈ cs ∧ (avail = [] ∨ m ∈ avail) := by
  intro cs
  induction cs with
  | nil =>
    intro m h
    simp [walkTrace] at h
  | cons c rest ih =>
    intro m h
    simp only [walkTrace] at h
    split at h
    case isTrue hc =>
      have hca : avail = [] ∨ c ∈ avail := by
        rcases Bool.or_eq_true_iff.mp hc with h1 | h2
        · exact Or.inl (List.isEmpty_iff.mp h1)
        · exact Or.inr (by simpa using h2)
      split at h
      case isTrue hp =>
        simp at h
        subst h
        exact ⟨hp, List.mem_cons_self c rest, hca⟩
      case isFalse hp =>
        simp at h
        obtain ⟨h1, h2, h3⟩ := ih m h
        exact ⟨h1, List.mem_cons_of_mem c h2, h3⟩
    case isFalse hc =>
      obtain ⟨h1, h2, h3⟩ := ih m h
      exact ⟨h1, List.mem_cons_of_mem c h2, h3⟩

theorem candidates_nonempty_strings :
    ∀ m ∈ candidates, m.isEmpty = false := by
  decide

theorem pyTruthy_some (s : String) : pyTruthy (some s) = !s.isEmpty := rfl

theorem pyTruthy_none : pyTruthy none = false := rfl

/-! ### Claim theorems -/

/-- C1: for every requested count k > 0, if the paper source returns at least
max(10, 3k) candidates and model resolution succeeds, then the run produces a
result list of length exactly k; and in general the number of results equals
the number of papers passed to the Summarizer and is at most k. -/
theorem run_count_exact (pe : PipelineEnv) (topic : String) (k : Nat)
    (prior : Option String) (papers : List Paper)
    (_hk : 0 < k)
    (hres : resolutionSucceeds pe prior = true)
    (hfetch : pe.fetch topic (fetchCount k) = .ok papers)
    (hlen : fetchCount k ≤ papers.length) :
    (∃ rs, (runPipeline pe topic k prior).outcome = .success rs ∧ rs.length = k) ∧
    (∀ rs, (runPipeline pe topic k prior).outcome = .success rs →
      rs.length = (runPipeline pe topic k prior).summarizeCalls.length ∧
      rs.length ≤ k) := by
  rw [runPipeline_eq_of_resolved pe topic k prior hres,
    runFromModel_ok pe topic k _ _ _ papers hfetch]
  have hkp : k ≤ papers.length := le_trans (fetchCount_ge k) hlen
  constructor
  · refine ⟨_, rfl, ?_⟩
    simp [List.length_take, Nat.min_eq_left hkp]
  · intro rs hrs
    simp only [RunOutcome.success.injEq] at hrs
    subst hrs
    constructor
    · simp
    · simp [List.length_take]

/-- C1 witness: a run over ten fetched papers with requested count three. -/
theorem run_count_exact_witness :
    (∃ rs, (runPipeline samplePipelineEnv "topic" 3 none).outcome = .success rs ∧
      rs.length = 3) ∧
    (∀ rs, (runPipeline samplePipelineEnv "topic" 3 none).outcome = .success rs →
      rs.length = (runPipeline samplePipelineEnv "topic" 3 none).summarizeCalls.length ∧
      rs.length ≤ 3) :=
  run_count_exact samplePipelineEnv "topic" 3 none ((List.range 10).map samplePaper)
    (by decide) rfl rfl (by simp [fetchCount])

/-- C2: whenever the Summarizer raises on one of the retained papers, that
paper's result carries the summary `"Summary failed: <reason>"` and the batch
still produces the full k results — a per-paper failure neither aborts the
run nor truncates the output. -/
theorem run_failure_marker (pe : PipelineEnv) (topic : String) (k : Nat)
    (prior : Option String) (papers : List Paper)
    (hres : resolutionSucceeds pe prior = true)
    (hfetch : pe.fetch topic (fetchCount k) = .ok papers)
    (hlen : fetchCount k ≤ papers.length) :
    ∃ rs, (runPipeline pe topic k prior).outcome = .success rs ∧ rs.length = k ∧
      ∀ i (hi : i < rs.length) (hc : i < (papers.take k).length) (e : String),
        summarize_with_gemini pe.generate (resolvedSel pe prior)
            ((papers.take k).get ⟨i, hc⟩) = .error e →
        (rs.get ⟨i, hi⟩).summary = "Summary failed: " ++ e := by
  rw [runPipeline_eq_of_resolved pe topic k prior hres,
    runFromModel_ok pe topic k _ _ _ papers hfetch]
  have hkp : k ≤ papers.length := le_trans (fetchCount_ge k) hlen
  refine ⟨_, rfl, ?_, ?_⟩
  · simp [List.length_take, Nat.min_eq_left hkp]
  · intro i hi hc e hfail
    simp only [List.get_eq_getElem, List.getElem_map]
    simp only [List.get_eq_getElem, List.getElem_take] at hfail
    simp [summarizeStep, hfail]

/-- C2 witness: a run where every LLM call raises with message
"quota exceeded". -/
theorem run_failure_marker_witness :
    ∃ rs, (runPipeline failingPipelineEnv "topic" 3 none).outcome = .success rs ∧
      rs.length = 3 ∧
      ∀ i (hi : i < rs.length)
        (hc : i < ((((List.range 10).map samplePaper)).take 3).length) (e : String),
        summarize_with_gemini failingPipelineEnv.generate
            (resolvedSel failingPipelineEnv none)
            (((((List.range 10).map samplePaper)).take 3).get ⟨i, hc⟩) = .error e →
        (rs.get ⟨i, hi⟩).summary = "Summary failed: " ++ e :=
  run_failure_marker failingPipelineEnv "topic" 3 none
    ((List.range 10).map samplePaper) rfl rfl (by simp [fetchCount])

/-- C3: the pipeline requests exactly max(10, k*3) candidates from the source
in a single call, hands the Summarizer exactly the first k fetched papers in
source order, and the k results are in the same relative order as those
papers. -/
theorem run_fetch_truncate_order (pe : PipelineEnv) (topic : String) (k : Nat)
    (prior : Option String) (papers : List Paper)
    (hres : resolutionSucceeds pe prior = true)
    (hfetch : pe.fetch topic (fetchCount k) = .ok papers)
    (hkp : k ≤ papers.length) :
    (runPipeline pe topic k prior).fetchRequests = [(topic, max 10 (k * 3))] ∧
    (runPipeline pe topic k prior).summarizeCalls = papers.take k ∧
    (runPipeline pe topic k prior).summarizeCalls.length = k ∧
    ∃ rs, (runPipeline pe topic k prior).outcome = .success rs ∧
      rs.map ReviewResult.paper = papers.take k := by
  rw [runPipeline_eq_of_resolved pe topic k prior hres,
    runFromModel_ok pe topic k _ _ _ papers hfetch]
  refine ⟨rfl, rfl, ?_, _, rfl, ?_⟩
  · simp [List.length_take, Nat.min_eq_left hkp]
  · rw [List.map_map]
    have h1 : ∀ p ∈ papers.take k,
        (ReviewResult.paper ∘ summarizeStep pe.generate (resolvedSel pe prior)) p =
          id p :=
      fun p _ => summarizeStep_paper _ _ p
    rw [List.map_congr_left h1, List.map_id]

/-- C3 witness: requested count 3, ten ranked papers fetched, request size
max(10, 9) = 10. -/
theorem run_fetch_truncate_order_witness :
    (runPipeline samplePipelineEnv "gnn" 3 none).fetchRequests = [("gnn", max 10 (3 * 3))] ∧
    (runPipeline samplePipelineEnv "gnn" 3 none).summarizeCalls =
      ((List.range 10).map samplePaper).take 3 ∧
    (runPipeline samplePipelineEnv "gnn" 3 none).summarizeCalls.length = 3 ∧
    ∃ rs, (runPipeline samplePipelineEnv "gnn" 3 none).outcome = .success rs ∧
      rs.map ReviewResult.paper = ((List.range 10).map samplePaper).take 3 :=
  run_fetch_truncate_order samplePipelineEnv "gnn" 3 none
    ((List.range 10).map samplePaper) rfl rfl (by simp)

/-- C4: the resolver walks the static candidate list in order; with empty
enumeration every candidate is probed until the first success, which becomes
the selected model (here: first n probes fail, probe n succeeds, so the
(n+1)-st candidate is selected after exactly n+1 probes); with non-empty
enumeration only members of the enumerated set are ever probed, and any
selected model passed both the membership filter and the probe. -/
theorem resolver_walk_order (env : GeminiEnv) (prior : Option String) (n : Nat)
    (hkey : pyTruthy env.apiKey = true)
    (hconf : env.configureOk = true)
    (hempty : get_available_gemini_models env.listRaises env.listedModels = [])
    (hn : n < candidates.length)
    (hfail : ∀ i (hi : i < n),
      env.probe (candidates.get ⟨i, Nat.lt_trans hi hn⟩) = false)
    (hsucc : env.probe (candidates.get ⟨n, hn⟩) = true) :
    (setup_gemini env prior).selected = some (candidates.get ⟨n, hn⟩) ∧
    (setup_gemini env prior).probed = candidates.take (n + 1) ∧
    (setup_gemini env prior).probed.length = n + 1 ∧
    (∀ avail probe name, name ∈ (walkTrace avail probe candidates).2 →
      avail = [] ∨ name ∈ avail) ∧
    (∀ avail probe m, (walkTrace avail probe candidates).1 = some m →
      probe m = true ∧ m ∈ candidates ∧ (avail = [] ∨ m ∈ avail)) := by
  have hw := walkTrace_nil_first_success env.probe candidates n hn hfail hsucc
  have hne : (candidates.get ⟨n, hn⟩).isEmpty = false :=
    candidates_nonempty_strings _ (candidates.get_mem n hn)
  simp only [List.get_eq_getElem] at hne
  have hlen2 : (candidates.take (n + 1)).length = n + 1 := by
    simp only [List.length_take]
    omega
  refine ⟨?_, ?_, ?_,
    (fun avail probe => walkTrace_probed_filter avail probe candidates),
    (fun avail probe => walkTrace_selected_sound avail probe candidates)⟩ <;>
    simp [setup_gemini, hkey, hconf, hempty, hw, pyTruthy_some, hne, hlen2]

/-- C4 witness: enumeration raises (empty set), the first two candidate probes
fail and the third succeeds: the third candidate is selected after exactly
three probe attempts. -/
theorem resolver_walk_order_witness :
    (setup_gemini walkGeminiEnv none).selected =
      some (candidates.get ⟨2, by decide⟩) ∧
    (setup_gemini walkGeminiEnv none).probed = candidates.take (2 + 1) ∧
    (setup_gemini walkGeminiEnv none).probed.length = 2 + 1 ∧
    (∀ avail probe name, name ∈ (walkTrace avail probe candidates).2 →
      avail = [] ∨ name ∈ avail) ∧
    (∀ avail probe m, (walkTrace avail probe candidates).1 = some m →
      probe m = true ∧ m ∈ candidates ∧ (avail = [] ∨ m ∈ avail)) :=
  resolver_walk_order walkGeminiEnv none 2 (by decide) rfl rfl (by decide)
    (by
      intro i hi
      have h2 : i = 0 ∨ i = 1 := by omega
      rcases h2 with rfl | rfl
      · rfl
      · rfl)
    (by decide)

/-- C5: when no candidate survives the membership filter and probe in a run
starting with the model state unset, `setup_gemini` reports the
no-compatible-model error and returns False, and the run terminates before
any arXiv request or Summarizer call is issued. -/
theorem resolver_no_model_terminal (pe : PipelineEnv) (topic : String) (k : Nat)
    (hnover : pyTruthy pe.userSelected = false)
    (hkey : pyTruthy pe.gemini.apiKey = true)
    (hconf : pe.gemini.configureOk = true)
    (hwalk : (walkTrace (get_available_gemini_models pe.gemini.listRaises
        pe.gemini.listedModels) pe.gemini.probe candidates).1 = none) :
    (setup_gemini pe.gemini none).error = some SetupError.noCompatibleModel ∧
    (setup_gemini pe.gemini none).ok = false ∧
    (runPipeline pe topic k none).outcome =
      RunOutcome.resolutionError SetupError.noCompatibleModel ∧
    (runPipeline pe topic k none).summarizeCalls = [] ∧
    (runPipeline pe topic k none).fetchRequests = [] := by
  have hsetup : setup_gemini pe.gemini none =
      ⟨none, false, some SetupError.noCompatibleModel, 1,
        (walkTrace (get_available_gemini_models pe.gemini.listRaises
          pe.gemini.listedModels) pe.gemini.probe candidates).2⟩ := by
    unfold setup_gemini
    simp [hkey, hconf, hwalk, pyTruthy_none]
  refine ⟨?_, ?_, ?_, ?_, ?_⟩ <;> simp [runPipeline, hnover, hsetup]

/-- C5 witness: a fresh run in which every construction probe fails. -/
theorem resolver_no_model_terminal_witness :
    (setup_gemini noModelEnv.gemini none).error = some SetupError.noCompatibleModel ∧
    (setup_gemini noModelEnv.gemini none).ok = false ∧
    (runPipeline noModelEnv "topic" 5 none).outcome =
      RunOutcome.resolutionError SetupError.noCompatibleModel ∧
    (runPipeline noModelEnv "topic" 5 none).summarizeCalls = [] ∧
    (runPipeline noModelEnv "topic" 5 none).fetchRequests = [] :=
  resolver_no_model_terminal noModelEnv "topic" 5 rfl (by decide) rfl (by decide)

/-- C6: a supplied user override bypasses the candidate walk entirely — no
enumeration and no probe occur — and the override itself, unchanged, is the
model used for the run. -/
theorem override_bypasses_resolution (pe : PipelineEnv) (topic : String)
    (k : Nat) (prior : Option String)
    (hover : pyTruthy pe.userSelected = true)
    (hconf : pe.gemini.configureOk = true) :
    (runPipeline pe topic k prior).selected = pe.userSelected ∧
    (runPipeline pe topic k prior).enumCalls = 0 ∧
    (runPipeline pe topic k prior).probed = [] := by
  have hrun : runPipeline pe topic k prior =
      runFromModel pe topic k pe.userSelected 0 [] := by
    unfold runPipeline
    simp [hover, hconf]
  rw [hrun]
  cases hf : pe.fetch topic (fetchCount k) with
  | error msg =>
    rw [runFromModel_err pe topic k _ _ _ msg hf]
    exact ⟨rfl, rfl, rfl⟩
  | ok papers =>
    rw [runFromModel_ok pe topic k _ _ _ papers hf]
    exact ⟨rfl, rfl, rfl⟩

/-- C6 witness: an override together with a provider on which every probe
would fail — showing the probe is never consulted. -/
theorem override_bypasses_resolution_witness :
    (runPipeline overrideEnv "topic" 5 none).selected = overrideEnv.userSelected ∧
    (runPipeline overrideEnv "topic" 5 none).enumCalls = 0 ∧
    (runPipeline overrideEnv "topic" 5 none).probed = [] :=
  override_bypasses_resolution overrideEnv "topic" 5 none (by decide) rfl

/-- C7: if the arXiv call raises a transport error, the run aborts with the
source error and no Summarizer call occurs (no partial result list). -/
theorem source_error_aborts (pe : PipelineEnv) (topic : String) (k : Nat)
    (prior : Option String) (msg : String)
    (hres : resolutionSucceeds pe prior = true)
    (hfetch : pe.fetch topic (fetchCount k) = .error msg) :
    (runPipeline pe topic k prior).outcome = RunOutcome.sourceError msg ∧
    (runPipeline pe topic k prior).summarizeCalls = [] := by
  rw [runPipeline_eq_of_resolved pe topic k prior hres,
    runFromModel_err pe topic k _ _ _ msg hfetch]
  exact ⟨rfl, rfl⟩

/-- C7 witness: a run whose arXiv client raises "connection reset". -/
theorem source_error_aborts_witness :
    (runPipeline downSourceEnv "topic" 3 none).outcome =
      RunOutcome.sourceError "connection reset" ∧
    (runPipeline downSourceEnv "topic" 3 none).summarizeCalls = [] :=
  source_error_aborts downSourceEnv "topic" 3 none "connection reset" rfl rfl

/-- C8: the Summarizer prompt is a pure function of (title, authors,
published, summary) — two papers agreeing on those four fields get
byte-identical prompts — and the prompt embeds the title, the comma-joined
authors, the published date followed by the literal " (arXiv)" tag, and the
verbatim abstract between the fixed template segments. -/
theorem prompt_pure_function (p q : Paper)
    (ht : p.title = q.title) (ha : p.authors = q.authors)
    (hp : p.published = q.published) (hs : p.summary = q.summary) :
    buildPrompt p = buildPrompt q ∧
    buildPrompt p = promptSeg0 ++ p.title ++ promptSeg1 ++
      String.intercalate ", " p.authors ++ promptSeg2 ++ p.published ++
      " (arXiv)" ++ promptSeg3 ++ p.summary ++ promptSeg4 := by
  constructor
  · simp [buildPrompt, ht, ha, hp, hs]
  · rfl

/-- C8 witness: two concrete papers differing only in their source URL get
the same prompt. -/
theorem prompt_pure_function_witness :
    buildPrompt promptPaperA = buildPrompt promptPaperB ∧
    buildPrompt promptPaperA = promptSeg0 ++ promptPaperA.title ++ promptSeg1 ++
      String.intercalate ", " promptPaperA.authors ++ promptSeg2 ++
      promptPaperA.published ++ " (arXiv)" ++ promptSeg3 ++
      promptPaperA.summary ++ promptSeg4 :=
  prompt_pure_function promptPaperA promptPaperB rfl rfl rfl rfl

/-- C9: model resolution is idempotent — with the provider oracles unchanged,
running `setup_gemini` again from the state left by a first run selects the
same model and returns the same status. -/
theorem resolve_idempotent (env : GeminiEnv) (prior : Option String) :
    (setup_gemini env (setup_gemini env prior).selected).selected =
      (setup_gemini env prior).selected ∧
    (setup_gemini env (setup_gemini env prior).selected).ok =
      (setup_gemini env prior).ok := by
  unfold setup_gemini
  by_cases h1 : pyTruthy env.apiKey = true
  · by_cases h2 : env.configureOk = true
    · simp only [h1, h2]
      cases hw : (walkTrace (get_available_gemini_models env.listRaises
          env.listedModels) env.probe candidates).1 with
      | none =>
        simp only [hw]
        by_cases h3 : pyTruthy prior = true <;> simp [h3]
      | some m =>
        simp only [hw]
        by_cases h3 : pyTruthy (some m) = true <;> simp [h3, hw]
    · simp [h1, h2]
  · simp [h1]

/-- C10: with the model state unset (None or the empty string), the
Summarizer does not fail — it silently substitutes the default identifier
"gemini-1.5-flash" and behaves exactly as if that model had been resolved. -/
theorem summarizer_default_model (sel : Option String)
    (h : sel = none ∨ sel = some "")
    (generate : String → String → Except String (Option String)) (p : Paper) :
    modelForCall sel = "gemini-1.5-flash" ∧
    summarize_with_gemini generate sel p =
      summarize_with_gemini generate (some "gemini-1.5-flash") p := by
  have hm : modelForCall sel = "gemini-1.5-flash" := by
    rcases h with rfl | rfl
    · rfl
    · decide
  have hm2 : modelForCall (some "gemini-1.5-flash") = "gemini-1.5-flash" := by
    decide
  refine ⟨hm, ?_⟩
  unfold summarize_with_gemini
  rw [hm, hm2]

/-- C10 witness: the unset state and the default model produce the same
Summarizer behavior on a concrete paper. -/
theorem summarizer_default_model_witness :
    modelForCall none = "gemini-1.5-flash" ∧
    summarize_with_gemini (fun _ _ => Except.ok (some "t")) none (samplePaper 0) =
      summarize_with_gemini (fun _ _ => Except.ok (some "t"))
        (some "gemini-1.5-flash") (samplePaper 0) :=
  summarizer_default_model none (Or.inl rfl)
    (fun _ _ => Except.ok (some "t")) (samplePaper 0)

end LitReview
